import Mathlib

/-!
Shallow embedding of the Video-to-MP3 API repository.

The repository holds three near-duplicate HTTP services:
* `src/worker.js` — a Cloudflare Worker (`fetch`, `handleConversion`,
  `convertVideoToMp3`, `simpleVideoToMp3Conversion`, `isVideoFile`,
  `handleStatus`, `createErrorResponse`), modelled in namespace `Worker`;
* the Express file-based variant at the top of `src/unnamed/part_000`
  (`app.post('/convert')`), modelled in namespace `ExpressApp`;
* the second Cloudflare Worker variant in `src/unnamed/part_000`
  (`handleRequest`, `handleVideoConversion`, `convertVideoToMP3`,
  `handleStatusCheck`, `handleCORS`, `createResponse`), modelled in
  namespace `CFWorker2`.

JavaScript strings are modelled as lists of natural-number character codes
(`List Nat`); buffers likewise as lists of byte values.  Handlers are pure
functions; the wall-clock timestamp used in JSON bodies is threaded in as an
explicit `now` argument; the transcoder boundary (`convertVideoToMp3`) is a
function parameter so that its invocations can be recorded.
-/

namespace VideoMp3

/-- Character codes of a Lean string literal; used to write the JS string
constants of the source. -/
def strCodes (s : String) : List Nat := s.data.map Char.toNat

/-- Decimal rendering of a number, as JS `Number.prototype.toString()`
produces for a nonnegative integer. -/
def natCodes (n : Nat) : List Nat := strCodes (Nat.repr n)

/-- ASCII lowercasing of a single character code: the effect of JS
`String.prototype.toLowerCase()` on each ASCII character. -/
def toLowerCode (c : Nat) : Nat := if 65 ≤ c ∧ c ≤ 90 then c + 32 else c

/-- JS `filename.toLowerCase()`, applied codepoint-wise. -/
def jsToLowerCase (s : List Nat) : List Nat := s.map toLowerCode

/-- Index of the last occurrence of '.' (code 46), JS
`filename.lastIndexOf('.')`; `none` stands for the JS result `-1`. -/
def lastDotIdx : List Nat → Option Nat
  | [] => none
  | c :: cs =>
    match lastDotIdx cs with
    | some i => some (i + 1)
    | none => if c = 46 then some 0 else none

/-- Whether `s` starts with `p` (JS `String.prototype.startsWith`). -/
def jsStartsWith : List Nat → List Nat → Bool
  | _, [] => true
  | [], _ :: _ => false
  | a :: as, b :: bs => a = b && jsStartsWith as bs

/-- Whether `s` contains `sub` as a contiguous substring
(JS `String.prototype.includes`). -/
def jsIncludes (sub : List Nat) : List Nat → Bool
  | [] => jsStartsWith [] sub
  | c :: rest => jsStartsWith (c :: rest) sub || jsIncludes sub rest

/-- A JSON string literal: the contents wrapped in double quotes (code 34). -/
def jsonQuote (s : List Nat) : List Nat := 34 :: (s ++ [34])

/-- Comma-separated concatenation (code 44), as in JSON array bodies. -/
def commaJoin : List (List Nat) → List Nat
  | [] => []
  | [x] => x
  | x :: y :: rest => x ++ 44 :: commaJoin (y :: rest)

/-- A JSON array of string literals, `["a","b",...]`. -/
def jsonStrArray (l : List (List Nat)) : List Nat :=
  91 :: (commaJoin (l.map jsonQuote) ++ [93])

/-- An HTTP response as the Workers runtime sees it: status, the explicitly
set headers (name, value pairs, in order), and the body (`none` for a JS
`null` body). -/
structure Response where
  status : Nat
  headers : List (List Nat × List Nat)
  body : Option (List Nat)
deriving DecidableEq, Repr

/-- An uploaded `File` from the multipart form: declared MIME type, filename
and content bytes.  Its `size` is the length of its content, as the File API
guarantees. -/
structure VideoFile where
  type_ : List Nat
  name : List Nat
  data : List Nat
deriving DecidableEq, Repr

namespace Worker

/-- The extension allow-list of `isVideoFile` in `src/worker.js` (line 145). -/
def videoExtensions : List (List Nat) :=
  [strCodes ".mp4", strCodes ".avi", strCodes ".mov", strCodes ".mkv",
   strCodes ".webm", strCodes ".flv", strCodes ".wmv"]

/-- `isVideoFile` from `src/worker.js` (lines 144-148):
`filename.toLowerCase().substring(filename.lastIndexOf('.'))` compared
against the extension list.  JS `substring(-1)` clamps to `0`, hence the
`getD 0`. -/
def isVideoFile (filename : List Nat) : Bool :=
  videoExtensions.contains
    ((jsToLowerCase filename).drop ((lastDotIdx filename).getD 0))

/-- The declared-MIME allow-list of `handleConversion` in `src/worker.js`
(line 54).  Note it does not contain `video/wmv` or `video/flv`. -/
def allowedTypes : List (List Nat) :=
  [strCodes "video/mp4", strCodes "video/avi", strCodes "video/mov",
   strCodes "video/mkv", strCodes "video/webm"]

/-- The file-type rejection condition of `src/worker.js` line 55:
`!allowedTypes.includes(videoFile.type) && !isVideoFile(videoFile.name)`. -/
def typeCheckRejects (type_ name : List Nat) : Bool :=
  !(allowedTypes.contains type_) && !(isVideoFile name)

/-- The size ceiling of `src/worker.js` line 60: `50 * 1024 * 1024`. -/
def maxFileSize : Nat := 50 * 1024 * 1024

/-- The JSON error body built by `createErrorResponse` (lines 171-175):
`JSON.stringify({error: true, message, timestamp})`, with the timestamp
passed in as `now`. -/
def jsonErrorBody (message now : List Nat) : List Nat :=
  strCodes "\x7b\"error\":true,\"message\":" ++ jsonQuote message ++
    strCodes ",\"timestamp\":" ++ jsonQuote now ++ strCodes "\x7d"

/-- `createErrorResponse` from `src/worker.js` (lines 170-182). -/
def createErrorResponse (message : List Nat) (status : Nat) (now : List Nat) :
    Response :=
  { status := status
    headers := [(strCodes "Content-Type", strCodes "application/json"),
                (strCodes "Access-Control-Allow-Origin", strCodes "*")]
    body := some (jsonErrorBody message now) }

/-- `simpleVideoToMp3Conversion` from `src/worker.js` (lines 115-141): a
16-byte hand-built MP3 header followed by 1024 zero bytes, independent of
the input buffer. -/
def simpleVideoToMp3Conversion (_videoBuffer : List Nat) : List Nat :=
  let mp3Header : List Nat :=
    [0xFF, 0xFB, 0x90, 0x00, 0x00, 0x00, 0x00, 0x00,
     0x00, 0x00, 0x00, 0x00, 0x00, 0x00, 0x00, 0x00]
  let audioData : List Nat := List.replicate 1024 0
  mp3Header ++ audioData

/-- `convertVideoToMp3` from `src/worker.js` (lines 92-111), acting on the
file's bytes (`videoFile.arrayBuffer()`); nothing in its body can fail, so
it always returns a buffer (`none` would model the caught-error `null`). -/
def convertVideoToMp3 (videoBuffer : List Nat) : Option (List Nat) :=
  some (simpleVideoToMp3Conversion videoBuffer)

/-- JS `name.replace(/\.[^/.]+$/, '')` (line 72 of `src/worker.js`): strip a
final `.ext` whose `ext` is nonempty and free of '.' and '/'.  Since the
matched dot is necessarily the last dot, the suffix after it contains no
dot; the slash check is explicit. -/
def jsStripExt (name : List Nat) : List Nat :=
  match lastDotIdx name with
  | none => name
  | some i =>
    let suffix := name.drop (i + 1)
    if suffix ≠ [] ∧ suffix.all (fun c => c ≠ 46 && c ≠ 47)
    then name.take i else name

/-- `handleConversion` from `src/worker.js` (lines 38-89), parameterised over
the transcoder boundary `convert` and the timestamp `now`.  The second
component of the result is the log of arguments passed to the transcoder
(the uploaded bytes for each invocation). -/
def handleConversion (convert : List Nat → Option (List Nat)) (now : List Nat)
    (contentTypeHeader : Option (List Nat)) (video : Option VideoFile) :
    Response × List (List Nat) :=
  match contentTypeHeader with
  | none =>
    (createErrorResponse (strCodes "Content-Type must be multipart/form-data") 400 now, [])
  | some ct =>
    if jsIncludes (strCodes "multipart/form-data") ct = false then
      (createErrorResponse (strCodes "Content-Type must be multipart/form-data") 400 now, [])
    else
      match video with
      | none => (createErrorResponse (strCodes "No video file provided") 400 now, [])
      | some f =>
        if typeCheckRejects f.type_ f.name then
          (createErrorResponse (strCodes "Invalid video file type") 400 now, [])
        else if f.data.length > maxFileSize then
          (createErrorResponse (strCodes "File too large. Maximum size is 50MB") 400 now, [])
        else
          match convert f.data with
          | none => (createErrorResponse (strCodes "Conversion failed") 500 now, [f.data])
          | some mp3Buffer =>
            ({ status := 200
               headers :=
                 [(strCodes "Content-Type", strCodes "audio/mpeg"),
                  (strCodes "Content-Disposition",
                   strCodes "attachment; filename=\"" ++ jsStripExt f.name ++
                     strCodes ".mp3\""),
                  (strCodes "Access-Control-Allow-Origin", strCodes "*"),
                  (strCodes "Content-Length", natCodes mp3Buffer.length)]
               body := some mp3Buffer }, [f.data])

/-- The limits object of the status payload (`src/worker.js` lines 157-160). -/
structure StatusLimits where
  maxFileSize : List Nat
  supportedFormats : List (List Nat)
deriving DecidableEq, Repr

/-- The JSON object serialised by `handleStatus` (lines 152-161). -/
structure StatusPayload where
  status : List Nat
  service : List Nat
  version : List Nat
  timestamp : List Nat
  limits : StatusLimits
deriving DecidableEq, Repr

/-- The status payload of `src/worker.js` lines 152-160; everything but the
timestamp is a literal constant. -/
def statusPayload (now : List Nat) : StatusPayload :=
  { status := strCodes "operational"
    service := strCodes "Video to MP3 Converter"
    version := strCodes "1.0.0"
    timestamp := now
    limits :=
      { maxFileSize := strCodes "50MB"
        supportedFormats :=
          [strCodes "mp4", strCodes "avi", strCodes "mov", strCodes "mkv",
           strCodes "webm"] } }

/-- `JSON.stringify` of the status payload, in insertion order of the keys. -/
def stringifyStatus (p : StatusPayload) : List Nat :=
  strCodes "\x7b\"status\":" ++ jsonQuote p.status ++
    strCodes ",\"service\":" ++ jsonQuote p.service ++
    strCodes ",\"version\":" ++ jsonQuote p.version ++
    strCodes ",\"timestamp\":" ++ jsonQuote p.timestamp ++
    strCodes ",\"limits\":\x7b\"maxFileSize\":" ++ jsonQuote p.limits.maxFileSize ++
    strCodes ",\"supportedFormats\":" ++ jsonStrArray p.limits.supportedFormats ++
    strCodes "\x7d\x7d"

/-- `handleStatus` from `src/worker.js` (lines 151-167). -/
def handleStatus (now : List Nat) : Response :=
  { status := 200
    headers := [(strCodes "Content-Type", strCodes "application/json"),
                (strCodes "Access-Control-Allow-Origin", strCodes "*")]
    body := some (stringifyStatus (statusPayload now)) }

/-- Body of the `GET /` documentation page returned by `getApiDocs`
(`src/worker.js` lines 185-306).  The HTML text itself is inspected by no
handler and no claim; only the marker matters to the model. -/
def getApiDocs : List Nat := strCodes "<!DOCTYPE html>"

/-- The CORS-preflight headers of the `OPTIONS` branch of `fetch`
(`src/worker.js` lines 10-15). -/
def preflightHeaders : List (List Nat × List Nat) :=
  [(strCodes "Access-Control-Allow-Origin", strCodes "*"),
   (strCodes "Access-Control-Allow-Methods", strCodes "GET, POST, OPTIONS"),
   (strCodes "Access-Control-Allow-Headers", strCodes "Content-Type, Authorization"),
   (strCodes "Access-Control-Max-Age", strCodes "86400")]

/-- An incoming request as `fetch` consumes it: method, URL path, the
`content-type` header (`none` when absent), and the `video` field of the
parsed multipart form (`none` when absent or not a `File`). -/
structure JsRequest where
  method : List Nat
  path : List Nat
  contentTypeHeader : Option (List Nat)
  video : Option VideoFile
deriving DecidableEq, Repr

/-- The exported `fetch` handler of `src/worker.js` (lines 4-35): the
`OPTIONS` short-circuit, then routing on `(path, method)`. -/
def fetch (convert : List Nat → Option (List Nat)) (now : List Nat)
    (req : JsRequest) : Response × List (List Nat) :=
  if req.method = strCodes "OPTIONS" then
    ({ status := 200, headers := preflightHeaders, body := none }, [])
  else if req.path = strCodes "/api/convert" ∧ req.method = strCodes "POST" then
    handleConversion convert now req.contentTypeHeader req.video
  else if req.path = strCodes "/api/status" ∧ req.method = strCodes "GET" then
    (handleStatus now, [])
  else if req.path = strCodes "/" ∧ req.method = strCodes "GET" then
    ({ status := 200
       headers := [(strCodes "Content-Type", strCodes "text/html")]
       body := some getApiDocs }, [])
  else
    ({ status := 404, headers := [], body := some (strCodes "Not Found") }, [])

end Worker

namespace CFWorker2

/-- The declared-MIME allow-list of `handleVideoConversion` in
`src/unnamed/part_000` (line 102).  Note it does not contain `video/mkv`,
and this variant performs no filename-extension fallback. -/
def allowedTypes : List (List Nat) :=
  [strCodes "video/mp4", strCodes "video/avi", strCodes "video/mov",
   strCodes "video/wmv", strCodes "video/flv", strCodes "video/webm"]

/-- The size ceiling of `src/unnamed/part_000` line 108. -/
def maxSize : Nat := 50 * 1024 * 1024

/-- The JSON body `JSON.stringify({error: msg})` used by this variant's
error responses. -/
def jsonErrBody (msg : List Nat) : List Nat :=
  strCodes "\x7b\"error\":" ++ jsonQuote msg ++ strCodes "\x7d"

/-- `createResponse` from `src/unnamed/part_000` (lines 201-211), taking the
already-stringified body. -/
def createResponse (body : List Nat) (status : Nat) : Response :=
  { status := status
    headers :=
      [(strCodes "Content-Type", strCodes "application/json"),
       (strCodes "Access-Control-Allow-Origin", strCodes "*"),
       (strCodes "Access-Control-Allow-Methods", strCodes "POST, GET, OPTIONS"),
       (strCodes "Access-Control-Allow-Headers", strCodes "Content-Type")]
    body := some body }

/-- `convertVideoToMP3` from `src/unnamed/part_000` (lines 134-158): after a
simulated delay it throws, and its own catch re-throws with a
`'Conversion failed: '` prefix; no success value is ever produced. -/
def convertVideoToMP3 (_videoFile : VideoFile) : Except (List Nat) (List Nat) :=
  .error (strCodes "Conversion failed: Video conversion requires FFmpeg or external service integration")

/-- `handleVideoConversion` from `src/unnamed/part_000` (lines 92-132). -/
def handleVideoConversion (video : Option VideoFile) : Response :=
  match video with
  | none => createResponse (jsonErrBody (strCodes "No video file provided")) 400
  | some f =>
    if !(allowedTypes.contains f.type_) then
      createResponse
        (jsonErrBody (strCodes "Invalid file type. Supported formats: MP4, AVI, MOV, WMV, FLV, WEBM")) 400
    else if f.data.length > maxSize then
      createResponse (jsonErrBody (strCodes "File size exceeds 50MB limit")) 400
    else
      match convertVideoToMP3 f with
      | .error e =>
        createResponse (jsonErrBody (strCodes "Conversion failed: " ++ e)) 500
      | .ok mp3Buffer =>
        { status := 200
          headers :=
            [(strCodes "Content-Type", strCodes "audio/mpeg"),
             (strCodes "Content-Disposition",
              strCodes "attachment; filename=\"" ++ Worker.jsStripExt f.name ++
                strCodes ".mp3\""),
             (strCodes "Access-Control-Allow-Origin", strCodes "*"),
             (strCodes "Access-Control-Allow-Methods", strCodes "POST, GET, OPTIONS"),
             (strCodes "Access-Control-Allow-Headers", strCodes "Content-Type")]
          body := some mp3Buffer }

/-- The JSON object serialised by `handleStatusCheck`
(`src/unnamed/part_000` lines 182-187). -/
structure StatusCheckPayload where
  status : List Nat
  timestamp : List Nat
  supported_formats : List (List Nat)
  max_file_size : List Nat
deriving DecidableEq, Repr

/-- The status payload of `src/unnamed/part_000` lines 182-187; only the
timestamp is not a literal constant. -/
def statusCheckPayload (now : List Nat) : StatusCheckPayload :=
  { status := strCodes "online"
    timestamp := now
    supported_formats :=
      [strCodes "mp4", strCodes "avi", strCodes "mov", strCodes "wmv",
       strCodes "flv", strCodes "webm"]
    max_file_size := strCodes "50MB" }

/-- `JSON.stringify` of this variant's status payload. -/
def stringifyStatusCheck (p : StatusCheckPayload) : List Nat :=
  strCodes "\x7b\"status\":" ++ jsonQuote p.status ++
    strCodes ",\"timestamp\":" ++ jsonQuote p.timestamp ++
    strCodes ",\"supported_formats\":" ++ jsonStrArray p.supported_formats ++
    strCodes ",\"max_file_size\":" ++ jsonQuote p.max_file_size ++
    strCodes "\x7d"

/-- `handleStatusCheck` from `src/unnamed/part_000` (lines 181-188). -/
def handleStatusCheck (now : List Nat) : Response :=
  createResponse (stringifyStatusCheck (statusCheckPayload now)) 200

/-- `handleCORS` from `src/unnamed/part_000` (lines 190-199).  Its headers
list has no `Access-Control-Max-Age` entry. -/
def handleCORS : Response :=
  { status := 200
    headers :=
      [(strCodes "Access-Control-Allow-Origin", strCodes "*"),
       (strCodes "Access-Control-Allow-Methods", strCodes "POST, GET, OPTIONS"),
       (strCodes "Access-Control-Allow-Headers", strCodes "Content-Type")]
    body := none }

/-- Body of the `GET /` page returned by `getHTMLInterface`
(`src/unnamed/part_000` lines 213-502); the HTML text is inspected by no
handler and no claim. -/
def getHTMLInterface : List Nat := strCodes "<!DOCTYPE html>"

/-- An incoming request as `handleRequest` consumes it. -/
structure JsRequest where
  method : List Nat
  path : List Nat
  video : Option VideoFile
deriving DecidableEq, Repr

/-- `handleRequest` from `src/unnamed/part_000` (lines 65-90): the `OPTIONS`
check precedes all route matching. -/
def handleRequest (req : JsRequest) (now : List Nat) : Response :=
  if req.method = strCodes "OPTIONS" then
    handleCORS
  else if req.path = strCodes "/api/convert" ∧ req.method = strCodes "POST" then
    handleVideoConversion req.video
  else if req.path = strCodes "/api/status" ∧ req.method = strCodes "GET" then
    handleStatusCheck now
  else if req.path = strCodes "/" ∧ req.method = strCodes "GET" then
    { status := 200
      headers := [(strCodes "Content-Type", strCodes "text/html")]
      body := some getHTMLInterface }
  else
    { status := 404, headers := [], body := some (strCodes "Not Found") }

end CFWorker2

namespace ExpressApp

/-- How the ffmpeg conversion started by `app.post('/convert')`
(`src/unnamed/part_000` lines 34-52) can end: the `'end'` event or the
`'error'` event. -/
inductive FfmpegOutcome where
  | finished
  | failed
deriving DecidableEq, Repr

/-- How `res.download(outputPath, cb)` can end on the success path: either
its callback fires, or `send`/`download` throws before the callback runs. -/
inductive DownloadOutcome where
  | callbackFired
  | threw
deriving DecidableEq, Repr

/-- Which temporary artifacts the handler deleted by the end of its
lifecycle. -/
structure CleanupResult where
  inputDeleted : Bool
  outputDeleted : Bool
deriving DecidableEq, Repr

/-- The cleanup behaviour of `app.post('/convert')` in
`src/unnamed/part_000` (lines 34-52): `fs.unlinkSync(inputPath)` runs only
inside the `'end'` handler, and `fs.unlinkSync(outputPath)` only inside the
`res.download` callback; the `'error'` handler deletes nothing. -/
def convertEndpointCleanup : FfmpegOutcome → DownloadOutcome → CleanupResult
  | .finished, .callbackFired => { inputDeleted := true, outputDeleted := true }
  | .finished, .threw => { inputDeleted := true, outputDeleted := false }
  | .failed, _ => { inputDeleted := false, outputDeleted := false }

end ExpressApp

/-- Modelled from the spec: the canonical allowed MIME set of §4.2, the
union over the variants
(`video/mp4, video/avi, video/mov, video/mkv, video/webm, video/wmv,
video/flv`); used to compare the claims' wording with the code's own
allow-lists. -/
def canonicalAllowedMimes : List (List Nat) :=
  [strCodes "video/mp4", strCodes "video/avi", strCodes "video/mov",
   strCodes "video/mkv", strCodes "video/webm", strCodes "video/wmv",
   strCodes "video/flv"]

/-- Modelled from the spec: the canonical extension list
`{mp4, avi, mov, mkv, webm, flv, wmv}` (§6), used to compare the claims'
wording with the status payloads of the code. -/
def canonicalExtensions : List (List Nat) :=
  [strCodes "mp4", strCodes "avi", strCodes "mov", strCodes "mkv",
   strCodes "webm", strCodes "flv", strCodes "wmv"]

/-! ### Helper lemmas shared by the claim theorems -/

theorem toLowerCode_eq_dot_iff (c : Nat) : toLowerCode c = 46 ↔ c = 46 := by
  unfold toLowerCode
  split <;> omega

theorem toLowerCode_idem (c : Nat) : toLowerCode (toLowerCode c) = toLowerCode c := by
  by_cases h : 65 ≤ c ∧ c ≤ 90
  · have h1 : toLowerCode c = c + 32 := if_pos h
    rw [h1]
    show (if 65 ≤ c + 32 ∧ c + 32 ≤ 90 then c + 32 + 32 else c + 32) = c + 32
    rw [if_neg (by omega)]
  · have h1 : toLowerCode c = c := if_neg h
    rw [h1, h1]

theorem jsToLowerCase_idem (s : List Nat) :
    jsToLowerCase (jsToLowerCase s) = jsToLowerCase s := by
  induction s with
  | nil => rfl
  | cons c cs ih =>
    show toLowerCode (toLowerCode c) :: jsToLowerCase (jsToLowerCase cs)
        = toLowerCode c :: jsToLowerCase cs
    rw [toLowerCode_idem, ih]

theorem lastDotIdx_jsToLowerCase (s : List Nat) :
    lastDotIdx (jsToLowerCase s) = lastDotIdx s := by
  induction s with
  | nil => rfl
  | cons c cs ih =>
    show lastDotIdx (toLowerCode c :: jsToLowerCase cs) = lastDotIdx (c :: cs)
    simp only [lastDotIdx, ih]
    cases h : lastDotIdx cs with
    | some i => rfl
    | none =>
      by_cases hc : c = 46
      · subst hc; rfl
      · rw [if_neg (fun hl => hc ((toLowerCode_eq_dot_iff c).mp hl)), if_neg hc]

theorem lastDotIdx_eq_none_iff (s : List Nat) : lastDotIdx s = none ↔ 46 ∉ s := by
  induction s with
  | nil => simp [lastDotIdx]
  | cons c cs ih =>
    simp only [lastDotIdx, List.mem_cons]
    cases h : lastDotIdx cs with
    | some i =>
      have h46 : 46 ∈ cs := by
        by_contra hn
        rw [ih.mpr hn] at h
        exact Option.noConfusion h
      simp [h46]
    | none =>
      have hn : 46 ∉ cs := ih.mp h
      by_cases hc : c = 46
      · subst hc; simp
      · simp [hc, hn]
        exact fun hl => hc hl.symm

theorem jsonQuote_inj {m1 m2 : List Nat} (h : jsonQuote m1 = jsonQuote m2) :
    m1 = m2 := by
  simp only [jsonQuote, List.cons.injEq, true_and] at h
  exact List.append_cancel_right h

theorem jsonErrorBody_inj {m1 m2 now : List Nat}
    (h : Worker.jsonErrorBody m1 now = Worker.jsonErrorBody m2 now) : m1 = m2 := by
  unfold Worker.jsonErrorBody at h
  have h1 := List.append_cancel_right h
  have h2 := List.append_cancel_right h1
  have h3 := List.append_cancel_right h2
  exact jsonQuote_inj (List.append_cancel_left h3)

theorem createErrorResponse_inj {m1 m2 : List Nat} {s1 s2 : Nat} {now : List Nat}
    (h : Worker.createErrorResponse m1 s1 now = Worker.createErrorResponse m2 s2 now) :
    m1 = m2 ∧ s1 = s2 := by
  have hb := congrArg Response.body h
  have hs := congrArg Response.status h
  simp only [Worker.createErrorResponse, Option.some.injEq] at hb hs
  exact ⟨jsonErrorBody_inj hb, hs⟩

theorem typeCheckRejects_iff (t n : List Nat) :
    Worker.typeCheckRejects t n = true ↔
      (t ∉ Worker.allowedTypes ∧ Worker.isVideoFile n = false) := by
  simp [Worker.typeCheckRejects]

theorem acao_mem_handleConversion (convert : List Nat → Option (List Nat))
    (now : List Nat) (cth : Option (List Nat)) (v : Option VideoFile) :
    (strCodes "Access-Control-Allow-Origin", strCodes "*")
      ∈ (Worker.handleConversion convert now cth v).1.headers := by
  rcases cth with _ | ct
  · exact List.Mem.tail _ (List.mem_cons_self _ _)
  · rcases v with _ | f
    · dsimp only [Worker.handleConversion]
      split
      · exact List.Mem.tail _ (List.mem_cons_self _ _)
      · exact List.Mem.tail _ (List.mem_cons_self _ _)
    · dsimp only [Worker.handleConversion]
      split
      · exact List.Mem.tail _ (List.mem_cons_self _ _)
      · split
        · exact List.Mem.tail _ (List.mem_cons_self _ _)
        · split
          · exact List.Mem.tail _ (List.mem_cons_self _ _)
          · split
            · exact List.Mem.tail _ (List.mem_cons_self _ _)
            · exact List.Mem.tail _ (List.Mem.tail _ (List.mem_cons_self _ _))

theorem acao_mem_handleVideoConversion (v : Option VideoFile) :
    (strCodes "Access-Control-Allow-Origin", strCodes "*")
      ∈ (CFWorker2.handleVideoConversion v).headers := by
  rcases v with _ | f
  · exact List.Mem.tail _ (List.mem_cons_self _ _)
  · dsimp only [CFWorker2.handleVideoConversion]
    split
    · exact List.Mem.tail _ (List.mem_cons_self _ _)
    · split
      · exact List.Mem.tail _ (List.mem_cons_self _ _)
      · split
        · exact List.Mem.tail _ (List.mem_cons_self _ _)
        · exact List.Mem.tail _ (List.Mem.tail _ (List.mem_cons_self _ _))

/-! ### Claim theorems -/

set_option maxRecDepth 10000 in
/-- Claim C9: in the placeholder variant (`simpleVideoToMp3Conversion` of
`src/worker.js`), the conversion is a constant function of its input: any
two uploads give byte-for-byte identical output, exactly 1040 bytes long,
beginning with the MP3 sync header `FF FB 90 00` and zero-filled after it,
and `convertVideoToMp3` returns exactly this buffer. -/
theorem placeholder_conversion_constant :
    (∀ a b : List Nat,
      Worker.simpleVideoToMp3Conversion a = Worker.simpleVideoToMp3Conversion b) ∧
    (∀ a : List Nat,
      (Worker.simpleVideoToMp3Conversion a).length = 1040 ∧
      (Worker.simpleVideoToMp3Conversion a).take 4 = [0xFF, 0xFB, 0x90, 0x00] ∧
      ((Worker.simpleVideoToMp3Conversion a).drop 4).all (fun b => b = 0) = true ∧
      Worker.convertVideoToMp3 a = some (Worker.simpleVideoToMp3Conversion a)) := by
  refine ⟨fun a b => rfl, fun a => ?_⟩
  have hc : Worker.simpleVideoToMp3Conversion a
      = Worker.simpleVideoToMp3Conversion [] := rfl
  rw [hc]
  exact ⟨by decide, by decide, by decide, rfl⟩

/-- Claim C7: the file-based convert handler (`app.post('/convert')` in
`src/unnamed/part_000`) does NOT delete its temporary artifacts on every
exit path: on the ffmpeg `'error'` path neither the uploaded input file nor
the output file is deleted, and on the success path the MP3 file survives
if `download` throws before its callback fires; only the
success-with-callback path deletes both.  This refutes the claim as a
property of the code and matches the spec's own description of the leak. -/
theorem express_convert_cleanup_leak :
    (ExpressApp.convertEndpointCleanup .failed .callbackFired).inputDeleted = false ∧
    (ExpressApp.convertEndpointCleanup .failed .callbackFired).outputDeleted = false ∧
    (ExpressApp.convertEndpointCleanup .finished .threw).outputDeleted = false ∧
    ExpressApp.convertEndpointCleanup .finished .callbackFired
      = { inputDeleted := true, outputDeleted := true } := by
  decide

/-- Claim C10: `isVideoFile` is case-insensitive — lowercasing the filename
first does not change the verdict; an upload named `CLIP.MP4` passes the
type check of `handleConversion` whatever its declared type; and a filename
containing no `'.'` (code 46) is never accepted by the extension check. -/
theorem isVideoFile_case_insensitive :
    (∀ n : List Nat, Worker.isVideoFile n = Worker.isVideoFile (jsToLowerCase n)) ∧
    (∀ t : List Nat, Worker.typeCheckRejects t (strCodes "CLIP.MP4") = false) ∧
    (∀ n : List Nat, 46 ∉ n → Worker.isVideoFile n = false) := by
  refine ⟨fun n => ?_, fun t => ?_, fun n hn => ?_⟩
  · unfold Worker.isVideoFile
    rw [lastDotIdx_jsToLowerCase, jsToLowerCase_idem]
  · unfold Worker.typeCheckRejects
    have h : Worker.isVideoFile (strCodes "CLIP.MP4") = true := by decide
    rw [h]
    simp
  · unfold Worker.isVideoFile
    rw [(lastDotIdx_eq_none_iff n).mpr hn]
    simp only [Option.getD_none, List.drop_zero]
    rcases n with _ | ⟨c, cs⟩
    · decide
    · show Worker.videoExtensions.contains (toLowerCode c :: jsToLowerCase cs) = false
      have hc : toLowerCode c ≠ 46 := by
        intro hl
        have hce : c = 46 := (toLowerCode_eq_dot_iff c).mp hl
        exact hn (by rw [← hce]; exact List.mem_cons_self c cs)
      rcases htrue : Worker.videoExtensions.contains (toLowerCode c :: jsToLowerCase cs)
      · rfl
      · exfalso
        have hmem : (toLowerCode c :: jsToLowerCase cs) ∈ Worker.videoExtensions := by
          simpa using htrue
        have hhead : ∀ x ∈ Worker.videoExtensions, x.head? = some 46 := by decide
        have h46 := hhead _ hmem
        rw [List.head?_cons] at h46
        exact hc (Option.some.inj h46)

/-- Claim C10 witness: at the concrete dot-free filename `"mp4"`, the
extension check rejects. -/
theorem isVideoFile_case_insensitive_witness :
    Worker.isVideoFile (strCodes "mp4") = false :=
  isVideoFile_case_insensitive.2.2 (strCodes "mp4") (by decide)

/-- Claim C8 (amended): an `OPTIONS` request to any path short-circuits
before path matching in both worker variants, returning 200 with a null
body; the `src/worker.js` preflight headers include
`Access-Control-Max-Age: 86400`, while the part_000 variant's preflight
response carries only origin, allowed-methods and allowed-headers
entries. -/
theorem options_preflight_short_circuit :
    (∀ (convert : List Nat → Option (List Nat)) (now p : List Nat)
        (ct : Option (List Nat)) (v : Option VideoFile),
      Worker.fetch convert now
          { method := strCodes "OPTIONS", path := p, contentTypeHeader := ct, video := v }
        = ({ status := 200, headers := Worker.preflightHeaders, body := none }, [])) ∧
    (strCodes "Access-Control-Max-Age", strCodes "86400") ∈ Worker.preflightHeaders ∧
    (∀ (now p : List Nat) (v : Option VideoFile),
      CFWorker2.handleRequest { method := strCodes "OPTIONS", path := p, video := v } now
        = CFWorker2.handleCORS) ∧
    CFWorker2.handleCORS.status = 200 ∧ CFWorker2.handleCORS.body = none := by
  exact ⟨fun convert now p ct v => rfl, by decide, fun now p v => rfl, rfl, rfl⟩

/-- Claim C8 (counterexample): the part_000 worker's preflight response has
no `Access-Control-Max-Age` header at all, refuting the claim's
`Access-Control-Max-Age: 86400` conjunct for that variant's handler. -/
theorem preflight_max_age_cex :
    (CFWorker2.handleRequest
        { method := strCodes "OPTIONS", path := strCodes "/api/convert", video := none }
        []).status = 200 ∧
    strCodes "Access-Control-Max-Age"
      ∉ ((CFWorker2.handleRequest
          { method := strCodes "OPTIONS", path := strCodes "/api/convert", video := none }
          []).headers.map Prod.fst) := by
  decide

/-- Claim C6 (amended): `GET /api/status` returns 200 in both variants with
`maxFileSize`/`max_file_size` equal to `"50MB"` and the payload constant
apart from the timestamp; but the formats array is
`[mp4, avi, mov, mkv, webm]` in `src/worker.js` and
`[mp4, avi, mov, wmv, flv, webm]` in the part_000 variant — neither is the
canonical seven-element extension list. -/
theorem status_payload_contents :
    (∀ (convert : List Nat → Option (List Nat)) (now : List Nat)
        (ct : Option (List Nat)) (v : Option VideoFile),
      (Worker.fetch convert now
          { method := strCodes "GET", path := strCodes "/api/status",
            contentTypeHeader := ct, video := v }).1 = Worker.handleStatus now) ∧
    (∀ now : List Nat,
      (Worker.handleStatus now).status = 200 ∧
      (Worker.handleStatus now).body
        = some (Worker.stringifyStatus (Worker.statusPayload now)) ∧
      (Worker.statusPayload now).limits.maxFileSize = strCodes "50MB" ∧
      (Worker.statusPayload now).limits.supportedFormats
        = [strCodes "mp4", strCodes "avi", strCodes "mov", strCodes "mkv",
           strCodes "webm"]) ∧
    (∀ n1 n2 : List Nat, (Worker.statusPayload n1).limits = (Worker.statusPayload n2).limits) ∧
    (∀ now : List Nat,
      (CFWorker2.handleStatusCheck now).status = 200 ∧
      (CFWorker2.statusCheckPayload now).max_file_size = strCodes "50MB" ∧
      (CFWorker2.statusCheckPayload now).supported_formats
        = [strCodes "mp4", strCodes "avi", strCodes "mov", strCodes "wmv",
           strCodes "flv", strCodes "webm"]) := by
  exact ⟨fun convert now ct v => rfl, fun now => ⟨rfl, rfl, rfl, rfl⟩,
    fun n1 n2 => rfl, fun now => ⟨rfl, rfl, rfl⟩⟩

set_option maxRecDepth 10000 in
/-- Claim C6 (counterexample): the `supportedFormats` array of the
`src/worker.js` status payload omits `flv` and `wmv`, and the part_000
variant's `supported_formats` omits `mkv`, so neither equals the canonical
extension list the claim names. -/
theorem status_formats_cex :
    (Worker.fetch Worker.convertVideoToMp3 []
        { method := strCodes "GET", path := strCodes "/api/status",
          contentTypeHeader := none, video := none }).1 = Worker.handleStatus [] ∧
    (Worker.statusPayload []).limits.supportedFormats ≠ canonicalExtensions ∧
    strCodes "flv" ∉ (Worker.statusPayload []).limits.supportedFormats ∧
    strCodes "wmv" ∉ (Worker.statusPayload []).limits.supportedFormats ∧
    (CFWorker2.statusCheckPayload []).supported_formats ≠ canonicalExtensions ∧
    strCodes "mkv" ∉ (CFWorker2.statusCheckPayload []).supported_formats := by
  decide

/-- Claim C5 (amended): every response of the preflight branch, the
`POST /api/convert` handler and the `GET /api/status` handler carries
`Access-Control-Allow-Origin: *`, in both worker variants. -/
theorem cors_on_handler_routes :
    (∀ (convert : List Nat → Option (List Nat)) (now p : List Nat)
        (ct : Option (List Nat)) (v : Option VideoFile),
      (strCodes "Access-Control-Allow-Origin", strCodes "*")
        ∈ (Worker.fetch convert now
            { method := strCodes "OPTIONS", path := p, contentTypeHeader := ct,
              video := v }).1.headers) ∧
    (∀ (convert : List Nat → Option (List Nat)) (now : List Nat)
        (ct : Option (List Nat)) (v : Option VideoFile),
      (strCodes "Access-Control-Allow-Origin", strCodes "*")
        ∈ (Worker.fetch convert now
            { method := strCodes "POST", path := strCodes "/api/convert",
              contentTypeHeader := ct, video := v }).1.headers) ∧
    (∀ (convert : List Nat → Option (List Nat)) (now : List Nat)
        (ct : Option (List Nat)) (v : Option VideoFile),
      (strCodes "Access-Control-Allow-Origin", strCodes "*")
        ∈ (Worker.fetch convert now
            { method := strCodes "GET", path := strCodes "/api/status",
              contentTypeHeader := ct, video := v }).1.headers) ∧
    (∀ (now p : List Nat) (v : Option VideoFile),
      (strCodes "Access-Control-Allow-Origin", strCodes "*")
        ∈ (CFWorker2.handleRequest
            { method := strCodes "OPTIONS", path := p, video := v } now).headers) ∧
    (∀ (now : List Nat) (v : Option VideoFile),
      (strCodes "Access-Control-Allow-Origin", strCodes "*")
        ∈ (CFWorker2.handleRequest
            { method := strCodes "POST", path := strCodes "/api/convert",
              video := v } now).headers) ∧
    (∀ (now : List Nat) (v : Option VideoFile),
      (strCodes "Access-Control-Allow-Origin", strCodes "*")
        ∈ (CFWorker2.handleRequest
            { method := strCodes "GET", path := strCodes "/api/status",
              video := v } now).headers) := by
  refine ⟨fun convert now p ct v => List.mem_cons_self _ _,
    fun convert now ct v => acao_mem_handleConversion convert now ct v,
    fun convert now ct v => List.Mem.tail _ (List.mem_cons_self _ _),
    fun now p v => List.mem_cons_self _ _,
    fun now v => acao_mem_handleVideoConversion v,
    fun now v => List.Mem.tail _ (List.mem_cons_self _ _)⟩

/-- Claim C5 (counterexample): the `404 Not Found` response and the
`GET /` HTML documentation response carry no
`Access-Control-Allow-Origin` header, in either worker variant. -/
theorem cors_missing_cex :
    (Worker.fetch Worker.convertVideoToMp3 []
        { method := strCodes "GET", path := strCodes "/nope",
          contentTypeHeader := none, video := none }).1.status = 404 ∧
    strCodes "Access-Control-Allow-Origin"
      ∉ ((Worker.fetch Worker.convertVideoToMp3 []
          { method := strCodes "GET", path := strCodes "/nope",
            contentTypeHeader := none, video := none }).1.headers.map Prod.fst) ∧
    strCodes "Access-Control-Allow-Origin"
      ∉ ((Worker.fetch Worker.convertVideoToMp3 []
          { method := strCodes "GET", path := strCodes "/",
            contentTypeHeader := none, video := none }).1.headers.map Prod.fst) ∧
    strCodes "Access-Control-Allow-Origin"
      ∉ ((CFWorker2.handleRequest
          { method := strCodes "GET", path := strCodes "/nope", video := none }
          []).headers.map Prod.fst) ∧
    strCodes "Access-Control-Allow-Origin"
      ∉ ((CFWorker2.handleRequest
          { method := strCodes "GET", path := strCodes "/", video := none }
          []).headers.map Prod.fst) := by
  decide

/-- Claim C2: every upload failing validation — missing file field (and the
content-type guard before it), disallowed type-and-extension, or oversized
payload — yields a 400 response with no transcoder invocation; and every
upload of at most 50 MiB with an allowed declared type or an allowed
extension passes validation and invokes the transcoder exactly once, with
the uploaded bytes. -/
theorem worker_fail_fast_single_invocation :
    (∀ (convert : List Nat → Option (List Nat)) (now : List Nat)
        (cth : Option (List Nat)),
      (Worker.handleConversion convert now cth none).1.status = 400 ∧
      (Worker.handleConversion convert now cth none).2 = []) ∧
    (∀ (convert : List Nat → Option (List Nat)) (now : List Nat)
        (cth : Option (List Nat)) (f : VideoFile),
      Worker.typeCheckRejects f.type_ f.name = true
          ∨ f.data.length > Worker.maxFileSize →
      (Worker.handleConversion convert now cth (some f)).1.status = 400 ∧
      (Worker.handleConversion convert now cth (some f)).2 = []) ∧
    (∀ (convert : List Nat → Option (List Nat)) (now ct : List Nat)
        (f : VideoFile),
      jsIncludes (strCodes "multipart/form-data") ct = true →
      (Worker.allowedTypes.contains f.type_ || Worker.isVideoFile f.name) = true →
      f.data.length ≤ Worker.maxFileSize →
      (Worker.handleConversion convert now (some ct) (some f)).2 = [f.data]) := by
  refine ⟨?_, ?_, ?_⟩
  · intro convert now cth
    rcases cth with _ | ct
    · exact ⟨rfl, rfl⟩
    · dsimp only [Worker.handleConversion]
      split
      · exact ⟨rfl, rfl⟩
      · exact ⟨rfl, rfl⟩
  · intro convert now cth f hrej
    rcases cth with _ | ct
    · exact ⟨rfl, rfl⟩
    · dsimp only [Worker.handleConversion]
      split
      · exact ⟨rfl, rfl⟩
      · by_cases hr : Worker.typeCheckRejects f.type_ f.name = true
        · rw [if_pos hr]
          exact ⟨rfl, rfl⟩
        · rcases hrej with hrej | hs
          · exact absurd hrej hr
          · rw [if_neg hr, if_pos hs]
            exact ⟨rfl, rfl⟩
  · intro convert now ct f hct htype hsize
    dsimp only [Worker.handleConversion]
    rw [if_neg (fun hfalse => by rw [hct] at hfalse; exact Bool.noConfusion hfalse)]
    have hr : Worker.typeCheckRejects f.type_ f.name = false := by
      unfold Worker.typeCheckRejects
      rw [← Bool.not_or, htype]
      rfl
    rw [if_neg (fun h => by rw [hr] at h; exact Bool.noConfusion h)]
    rw [if_neg (by omega)]
    rcases hconv : convert f.data with _ | mp3 <;> rfl

/-- Claim C2 witness: a tiny `video/mp4` upload passes validation and the
transcoder receives exactly its bytes, once. -/
theorem worker_fail_fast_single_invocation_witness :
    (Worker.handleConversion (fun b => some b) (strCodes "T")
        (some (strCodes "multipart/form-data"))
        (some { type_ := strCodes "video/mp4", name := strCodes "a.mp4",
                data := [7, 8, 9] })).2 = [[7, 8, 9]] :=
  worker_fail_fast_single_invocation.2.2 (fun b => some b) (strCodes "T")
    (strCodes "multipart/form-data")
    { type_ := strCodes "video/mp4", name := strCodes "a.mp4", data := [7, 8, 9] }
    (by decide) (by decide) (by decide)

/-- Claim C3: an upload whose byte size exceeds 50 × 1024 × 1024 gets a 400
response whatever its declared type, with no transcoder invocation; and
when the type check has passed, the response is exactly the
`File too large. Maximum size is 50MB` error. -/
theorem worker_size_limit (convert : List Nat → Option (List Nat))
    (now : List Nat) (cth : Option (List Nat)) (f : VideoFile)
    (hsize : f.data.length > Worker.maxFileSize) :
    (Worker.handleConversion convert now cth (some f)).1.status = 400 ∧
    (Worker.handleConversion convert now cth (some f)).2 = [] ∧
    (∀ ct : List Nat, jsIncludes (strCodes "multipart/form-data") ct = true →
      Worker.typeCheckRejects f.type_ f.name = false →
      (Worker.handleConversion convert now (some ct) (some f)).1
        = Worker.createErrorResponse
            (strCodes "File too large. Maximum size is 50MB") 400 now) := by
  refine ⟨?_, ?_, ?_⟩
  · rcases cth with _ | ct
    · rfl
    · dsimp only [Worker.handleConversion]
      split
      · rfl
      · split
        · rfl
        · rfl
  · rcases cth with _ | ct
    · rfl
    · dsimp only [Worker.handleConversion]
      split
      · rfl
      · split
        · rfl
        · rfl
  · intro ct hct hr
    dsimp only [Worker.handleConversion]
    rw [if_neg (fun hfalse => by rw [hct] at hfalse; exact Bool.noConfusion hfalse)]
    rw [if_neg (fun h => by rw [hr] at h; exact Bool.noConfusion h), if_pos hsize]

/-- Claim C3 witness: a 50 MiB + 1 byte `video/mp4` upload is rejected with
status 400, the transcoder is not invoked, and the body is the
file-too-large error. -/
theorem worker_size_limit_witness :
    (Worker.handleConversion Worker.convertVideoToMp3 (strCodes "T")
        (some (strCodes "multipart/form-data"))
        (some { type_ := strCodes "video/mp4", name := strCodes "clip.mp4",
                data := List.replicate (Worker.maxFileSize + 1) 0 })).1.status = 400 ∧
    (Worker.handleConversion Worker.convertVideoToMp3 (strCodes "T")
        (some (strCodes "multipart/form-data"))
        (some { type_ := strCodes "video/mp4", name := strCodes "clip.mp4",
                data := List.replicate (Worker.maxFileSize + 1) 0 })).2 = [] := by
  have h := worker_size_limit Worker.convertVideoToMp3 (strCodes "T")
    (some (strCodes "multipart/form-data"))
    { type_ := strCodes "video/mp4", name := strCodes "clip.mp4",
      data := List.replicate (Worker.maxFileSize + 1) 0 }
    (by rw [List.length_replicate]; exact Nat.lt_succ_self _)
  exact ⟨h.1, h.2.1⟩

/-- Claim C4: when validation passes and the transcoder returns a buffer,
the response is 200 with `Content-Type: audio/mpeg`, a
`Content-Disposition` attachment whose filename is the original name with
its final extension stripped plus `.mp3`, the CORS header, a
`Content-Length` equal to the decimal rendering of the body's byte length,
and the transcoded bytes as body. -/
theorem worker_success_response (convert : List Nat → Option (List Nat))
    (now ct : List Nat) (f : VideoFile) (mp3 : List Nat)
    (hct : jsIncludes (strCodes "multipart/form-data") ct = true)
    (htype : (Worker.allowedTypes.contains f.type_ || Worker.isVideoFile f.name) = true)
    (hsize : f.data.length ≤ Worker.maxFileSize)
    (hconv : convert f.data = some mp3) :
    (Worker.handleConversion convert now (some ct) (some f)).1
      = { status := 200
          headers :=
            [(strCodes "Content-Type", strCodes "audio/mpeg"),
             (strCodes "Content-Disposition",
              strCodes "attachment; filename=\"" ++ Worker.jsStripExt f.name
                ++ strCodes ".mp3\""),
             (strCodes "Access-Control-Allow-Origin", strCodes "*"),
             (strCodes "Content-Length", natCodes mp3.length)]
          body := some mp3 } ∧
    (Worker.handleConversion convert now (some ct) (some f)).2 = [f.data] := by
  dsimp only [Worker.handleConversion]
  rw [if_neg (fun hfalse => by rw [hct] at hfalse; exact Bool.noConfusion hfalse)]
  have hr : Worker.typeCheckRejects f.type_ f.name = false := by
    unfold Worker.typeCheckRejects
    rw [← Bool.not_or, htype]
    rfl
  rw [if_neg (fun h => by rw [hr] at h; exact Bool.noConfusion h)]
  rw [if_neg (by omega), hconv]
  exact ⟨rfl, rfl⟩

/-- Claim C4 witness: the spec's concrete scenario — `clip.MOV`,
`video/mov`, ten bytes, a stub transcoder returning four bytes — yields a
200 response with filename `clip.mp3` and `Content-Length` 4. -/
theorem worker_success_response_witness :
    (Worker.handleConversion (fun _ => some [1, 2, 3, 4]) (strCodes "T")
        (some (strCodes "multipart/form-data"))
        (some { type_ := strCodes "video/mov", name := strCodes "clip.MOV",
                data := [0, 1, 2, 3, 4, 5, 6, 7, 8, 9] })).1
      = { status := 200
          headers :=
            [(strCodes "Content-Type", strCodes "audio/mpeg"),
             (strCodes "Content-Disposition",
              strCodes "attachment; filename=\""
                ++ Worker.jsStripExt (strCodes "clip.MOV") ++ strCodes ".mp3\""),
             (strCodes "Access-Control-Allow-Origin", strCodes "*"),
             (strCodes "Content-Length", natCodes ([1, 2, 3, 4] : List Nat).length)]
          body := some [1, 2, 3, 4] } :=
  (worker_success_response (fun _ => some [1, 2, 3, 4]) (strCodes "T")
    (strCodes "multipart/form-data")
    { type_ := strCodes "video/mov", name := strCodes "clip.MOV",
      data := [0, 1, 2, 3, 4, 5, 6, 7, 8, 9] }
    [1, 2, 3, 4] (by decide) (by decide) (by decide) rfl).1

set_option maxRecDepth 10000 in
/-- Claim C1 (counterexample): an upload declared `video/wmv` — a member of
the canonical allowed MIME set the claim names — whose filename extension
is not allowed is nonetheless rejected with 400
`Invalid video file type` by `src/worker.js`, whose own MIME list omits
`video/wmv` and `video/flv`. -/
theorem worker_canonical_mime_cex :
    (Worker.handleConversion Worker.convertVideoToMp3 (strCodes "T")
        (some (strCodes "multipart/form-data"))
        (some { type_ := strCodes "video/wmv", name := strCodes "clip.xyz",
                data := [0] })).1
      = Worker.createErrorResponse (strCodes "Invalid video file type") 400
          (strCodes "T") ∧
    strCodes "video/wmv" ∈ canonicalAllowedMimes := by
  decide

/-- Claim C1 (amended): for a multipart upload carrying a file field,
`src/worker.js` returns 400 `Invalid video file type` iff the declared
type is outside its own MIME list
`{video/mp4, video/avi, video/mov, video/mkv, video/webm}` (which omits
`video/wmv` and `video/flv`) AND the filename extension is outside the
extension allow-list; if either is allowed, the type check passes. -/
theorem worker_invalid_type_iff (convert : List Nat → Option (List Nat))
    (now ct : List Nat) (f : VideoFile)
    (hct : jsIncludes (strCodes "multipart/form-data") ct = true) :
    (Worker.handleConversion convert now (some ct) (some f)).1
        = Worker.createErrorResponse (strCodes "Invalid video file type") 400 now
      ↔ (f.type_ ∉ Worker.allowedTypes ∧ Worker.isVideoFile f.name = false) := by
  constructor
  · intro h
    by_cases hr : Worker.typeCheckRejects f.type_ f.name = true
    · exact (typeCheckRejects_iff _ _).mp hr
    · exfalso
      dsimp only [Worker.handleConversion] at h
      rw [if_neg (fun hfalse => by rw [hct] at hfalse; exact Bool.noConfusion hfalse)] at h
      rw [if_neg hr] at h
      by_cases hs : f.data.length > Worker.maxFileSize
      · rw [if_pos hs] at h
        have hmsg := (createErrorResponse_inj h).1
        exact absurd hmsg (by decide)
      · rw [if_neg hs] at h
        rcases hconv : convert f.data with _ | mp3
        · rw [hconv] at h
          have hmsg := (createErrorResponse_inj h).1
          exact absurd hmsg (by decide)
        · rw [hconv] at h
          have h200 : (200 : Nat) = 400 := congrArg Response.status h
          exact absurd h200 (by decide)
  · intro hcond
    have hr : Worker.typeCheckRejects f.type_ f.name = true :=
      (typeCheckRejects_iff _ _).mpr hcond
    dsimp only [Worker.handleConversion]
    rw [if_neg (fun hfalse => by rw [hct] at hfalse; exact Bool.noConfusion hfalse)]
    rw [if_pos hr]

/-- Claim C1 witness: a `text/plain` upload named `notes.txt` (neither type
nor extension allowed) is rejected with the invalid-type error. -/
theorem worker_invalid_type_iff_witness :
    (Worker.handleConversion Worker.convertVideoToMp3 (strCodes "T")
        (some (strCodes "multipart/form-data"))
        (some { type_ := strCodes "text/plain", name := strCodes "notes.txt",
                data := [1] })).1
      = Worker.createErrorResponse (strCodes "Invalid video file type") 400
          (strCodes "T") :=
  (worker_invalid_type_iff Worker.convertVideoToMp3 (strCodes "T")
    (strCodes "multipart/form-data")
    { type_ := strCodes "text/plain", name := strCodes "notes.txt", data := [1] }
    (by decide)).mpr (by decide)

end VideoMp3
